import Mathlib

/-!
Verification development for the paper-pulse pipeline
(src/backend/pipeline/nodes.py, src/backend/pipeline/graph.py,
src/backend/data_model/paper.py, src/main.py).

The pipeline nodes are shallowly embedded: each LangGraph node function
becomes a Lean function returning a `Command` (goto target plus a partial
state update), Python dicts keyed by the integer paper index become
association lists with Python dict assignment semantics (`PyDict.set`),
and the nondeterministic timestamps produced by `datetime.now()` become
explicit oracle parameters.
-/

/-- Routing target of a LangGraph `Command`: either the `END` sentinel or a
named node of the graph. -/
inductive Goto where
  | END : Goto
  | node : String → Goto
deriving DecidableEq, Repr

/-- Node name constants from src/backend/pipeline/node_types.py. -/
def PAPER_DISCOVERY_NODE : String := "paper_discovery_node"

def MAP_EXTRACTION_NODE : String := "map_extraction_node"

def PROCESS_SINGLE_PAPER_NODE : String := "process_single_paper"

def EXTRACT_SINGLE_PAPER_NODE : String := "extract_single_paper_node"

def ANALYZE_SINGLE_PAPER_NODE : String := "analyze_single_paper_node"

def COLLECT_RESULTS_NODE : String := "collect_results_node"

def DELIVERY_NODE : String := "delivery_node"

/-! ### Data model (src/backend/data_model/paper.py) -/

/-- `UserProfile` dataclass. -/
structure UserProfile where
  avatar_url : Option String
  fullname : Option String
  username : Option String
  user_type : Option String
  follower_count : Option Nat
deriving DecidableEq, Repr

/-- `UserPermissions` dataclass. -/
structure UserPermissions where
  is_pro : Option Bool
  is_hf : Option Bool
  is_hf_admin : Option Bool
  is_mod : Option Bool
deriving DecidableEq, Repr

/-- `User` dataclass: its only fields are `id`, `profile`, `permissions`. -/
structure User where
  id : String
  profile : Option UserProfile
  permissions : Option UserPermissions
deriving DecidableEq, Repr

/-- `Author` dataclass. -/
structure Author where
  id : String
  name : String
  user : Option User
  status : Option String
  status_last_changed_at : Option String
  hidden : Option Bool
deriving DecidableEq, Repr

/-- `PaperCore` dataclass. -/
structure PaperCore where
  id : String
  title : String
  authors : List Author
  summary : String
  published_at : Option String
deriving DecidableEq, Repr

/-- `PaperMetadata` dataclass. -/
structure PaperMetadata where
  media_urls : List String
  project_page : Option String
  github_repo : Option String
  thumbnail : Option String
  github_stars : Option Nat
deriving DecidableEq, Repr

/-- `PaperEngagement` dataclass. -/
structure PaperEngagement where
  upvotes : Nat
  num_comments : Nat
  discussion_id : Option String
deriving DecidableEq, Repr

/-- `PaperSubmission` dataclass. -/
structure PaperSubmission where
  submitted_by : Option User
  submitted_on_daily_by : Option User
  submitted_on_daily_at : Option String
  is_author_participating : Option Bool
deriving DecidableEq, Repr

/-- `AIContent` dataclass. -/
structure AIContent where
  ai_summary : Option String
  ai_keywords : List String
deriving DecidableEq, Repr

/-- `Paper` dataclass: its fields are exactly `core`, `metadata`,
`engagement`, `submission`, `ai_content` (the runtime-only `processing`
field, which holds a wall-clock `discovered_at` timestamp and a status
enum, is not used by any verified property and is omitted). -/
structure Paper where
  core : PaperCore
  metadata : PaperMetadata
  engagement : PaperEngagement
  submission : PaperSubmission
  ai_content : AIContent
deriving DecidableEq, Repr

/-- Backward-compatibility accessor `Paper.id` (returns `core.id`). -/
def Paper.id (p : Paper) : String := p.core.id

/-- Backward-compatibility accessor `Paper.title` (returns `core.title`). -/
def Paper.title (p : Paper) : String := p.core.title

/-- Backward-compatibility accessor `Paper.ai_summary`. -/
def Paper.ai_summary (p : Paper) : Option String := p.ai_content.ai_summary

/-- Backward-compatibility accessor `Paper.ai_keywords`. -/
def Paper.ai_keywords (p : Paper) : List String := p.ai_content.ai_keywords

/-- `Paper.author_list` property: maps author names, then formats by count
(1 name, "a and b" for two, "a et al." for more than two, "" otherwise). -/
def Paper.author_list (p : Paper) : String :=
  let author_names := p.core.authors.map (fun a => a.name)
  if author_names.length = 1 then author_names.getD 0 ""
  else if author_names.length = 2 then
    author_names.getD 0 "" ++ " and " ++ author_names.getD 1 ""
  else if author_names.length > 2 then author_names.getD 0 "" ++ " et al."
  else ""

/-! ### Python dict keyed by paper index

The pipeline stores `extraction_results` and `analysis_results` in Python
dicts keyed by the integer paper index.  Assignment `d[k] = v` replaces the
value in place when the key is present (keys stay unique, insertion order
kept) and appends otherwise. -/

/-- A Python dict with `Nat` keys, as an insertion-ordered association
list. -/
abbrev PyDict (α : Type) : Type := List (Nat × α)

/-- Python dict assignment `d[k] = v`: replace in place when `k` is
present, append otherwise. -/
def PyDict.set {α : Type} : PyDict α → Nat → α → PyDict α
  | [], k, v => [(k, v)]
  | (k1, v1) :: rest, k, v =>
    if k1 = k then (k, v) :: rest else (k1, v1) :: PyDict.set rest k v

/-- Python dict lookup `d.get(k)`. -/
def PyDict.get? {α : Type} : PyDict α → Nat → Option α
  | [], _ => none
  | (k1, v1) :: rest, k => if k1 = k then some v1 else PyDict.get? rest k

/-- Python `d.keys()` in insertion order. -/
def PyDict.keys {α : Type} (d : PyDict α) : List Nat := d.map Prod.fst

/-! ### Pipeline state pieces (src/backend/pipeline/state.py and the keys
actually read/written by nodes.py) -/

/-- The `extracted_content` dict built by the extraction step. -/
structure ExtractedContent where
  status : String
  content : String
  paper_id : String
  extraction_timestamp : String
deriving DecidableEq, Repr

/-- The `analysis` dict built by the analysis step. -/
structure Analysis where
  status : String
  paper_id : String
  tldr : String
  key_contributions : List String
  technical_insights : List String
  analysis_timestamp : String
deriving DecidableEq, Repr

/-- The `delivery_status` dict built by `delivery_node`. -/
structure DeliveryStatus where
  delivered_at : String
  status : String
  channel_count : Nat
  paper_count : Nat
deriving DecidableEq, Repr

/-- `SinglePaperState`: the per-item state dict handed to
`collect_results_node`.  `paper` is read with `.get("paper")` (may be
absent), `paper_index` with `.get("paper_index", 0)` (defaulted, so a plain
`Nat` here), and `extracted_content` / `analysis` are present only when the
corresponding stage ran. -/
structure SinglePaperState where
  paper : Option Paper
  paper_index : Nat
  extracted_content : Option ExtractedContent
  analysis : Option Analysis
  pipeline_id : String
deriving DecidableEq, Repr

/-- The partial state update carried by a `Command` (only the keys any node
of nodes.py ever writes). -/
structure PipelineUpdate where
  error : Option String
  discovered_papers : Option (List Paper)
  processed_papers : Option (List (Option Paper))
  extraction_results : Option (PyDict ExtractedContent)
  analysis_results : Option (PyDict Analysis)
  processing_complete : Option Bool
  delivery_status : Option DeliveryStatus
deriving DecidableEq, Repr

/-- The empty update (no keys written). -/
def PipelineUpdate.empty : PipelineUpdate :=
  { error := none, discovered_papers := none, processed_papers := none,
    extraction_results := none, analysis_results := none,
    processing_complete := none, delivery_status := none }

/-- A LangGraph `Command(goto=..., update=...)` as returned by the nodes. -/
structure Command where
  goto : Goto
  update : PipelineUpdate
deriving DecidableEq, Repr

/-- The slice of `PipelineState` read by `map_extraction_node` and
`delivery_node`. -/
structure PipelineStateIn where
  pipeline_id : String
  discovered_papers : Option (List Paper)
  processed_papers : Option (List (Option Paper))
deriving DecidableEq, Repr

/-! ### Discovery (nodes.py `_fetch_daily_papers` and
`paper_discovery_node`)

`_fetch_daily_papers` performs an HTTP call, parses the JSON response into
a list of items, and converts each item carrying a `"paper"` key into
`Paper` (building `User` and `Author` objects for its authors and
submitters on the way).  Every constructor call is a Python dataclass call
with keyword arguments; a keyword that is not a declared field of the
dataclass raises `TypeError`.  Both `requests.RequestException` and the
blanket `except Exception` handler make the function return `[]`. -/

/-- Field names of the `Paper` dataclass (paper.py, class `Paper`). -/
def paperFields : List String :=
  ["core", "metadata", "engagement", "submission", "ai_content", "processing"]

/-- Field names of the `User` dataclass (paper.py, class `User`). -/
def userFields : List String := ["id", "profile", "permissions"]

/-- Field names of the `Author` dataclass (paper.py, class `Author`). -/
def authorFields : List String :=
  ["id", "name", "user", "status", "status_last_changed_at", "hidden"]

/-- Keyword arguments of the `Paper(...)` call in `_fetch_daily_papers`
(nodes.py lines 106-126). -/
def paperCallKwargs : List String :=
  ["id", "title", "authors", "summary", "published_at",
   "submitted_on_daily_at", "media_urls", "project_page", "github_repo",
   "thumbnail", "upvotes", "num_comments", "discussion_id", "ai_summary",
   "ai_keywords", "github_stars", "submitted_by", "submitted_on_daily_by",
   "is_author_participating"]

/-- Keyword arguments of the `User(...)` call for an author's user
(nodes.py lines 54-65); the `submittedBy` call at lines 81-92 passes the
same keyword names. -/
def userCallKwargsAuthor : List String :=
  ["id", "avatar_url", "fullname", "username", "user_type", "is_pro",
   "is_hf", "is_hf_admin", "is_mod", "follower_count"]

/-- Keyword arguments of the `User(...)` call for `submittedOnDailyBy`
(nodes.py lines 97-103). -/
def userCallKwargsSubmittedOnDaily : List String :=
  ["id", "avatar_url", "fullname", "username", "user_type"]

/-- Keyword arguments of the `Author(...)` call (nodes.py lines 67-74);
these all are declared fields of `Author`, so this call succeeds. -/
def authorCallKwargs : List String :=
  ["id", "name", "user", "status", "status_last_changed_at", "hidden"]

/-- A Python dataclass constructor call with keyword arguments: raises
`TypeError` on the first keyword that is not a declared field. -/
def dataclassCall (fields kwargs : List String) : Except String Unit :=
  match kwargs.find? (fun k => !fields.contains k) with
  | some k => Except.error ("TypeError: unexpected keyword argument " ++ k)
  | none => Except.ok ()

/-- The shape of one entry of the parsed daily-papers JSON array, keeping
exactly what decides the control flow of the conversion loop: whether the
entry has a `"paper"` key, which of its authors carry truthy `"user"`
data, and whether `submittedBy` / `submittedOnDailyBy` are truthy. -/
structure ApiItem where
  hasPaper : Bool
  authorsHaveUser : List Bool
  hasSubmittedBy : Bool
  hasSubmittedOnDailyBy : Bool
deriving DecidableEq, Repr

/-- One iteration of the authors loop: build the `User` object when the
author data has a truthy `"user"`, then the `Author` object. -/
def buildAuthor (hasUser : Bool) : Except String Unit :=
  if hasUser then
    match dataclassCall userFields userCallKwargsAuthor with
    | Except.error e => Except.error e
    | Except.ok _ => dataclassCall authorFields authorCallKwargs
  else dataclassCall authorFields authorCallKwargs

/-- The authors loop of the conversion. -/
def buildAuthors : List Bool → Except String Unit
  | [] => Except.ok ()
  | b :: rest =>
    match buildAuthor b with
    | Except.error e => Except.error e
    | Except.ok _ => buildAuthors rest

/-- A `Paper` value for the success branch of the conversion.  That branch
is unreachable: the `Paper(...)` dataclass call always raises first, since
none of its keyword arguments is a declared field of `Paper` (proved
below), so this value never flows into any result. -/
def placeholderPaper : Paper :=
  { core := { id := "", title := "", authors := [], summary := "",
              published_at := none },
    metadata := { media_urls := [], project_page := none,
                  github_repo := none, thumbnail := none,
                  github_stars := none },
    engagement := { upvotes := 0, num_comments := 0, discussion_id := none },
    submission := { submitted_by := none, submitted_on_daily_by := none,
                    submitted_on_daily_at := none,
                    is_author_participating := none },
    ai_content := { ai_summary := none, ai_keywords := [] } }

/-- Conversion of one item that has a `"paper"` key: the authors loop, the
optional `submittedBy` and `submittedOnDailyBy` `User(...)` calls, then the
`Paper(...)` call, in source order; the first `TypeError` aborts. -/
def convertItem (it : ApiItem) : Except String Paper :=
  match buildAuthors it.authorsHaveUser with
  | Except.error e => Except.error e
  | Except.ok _ =>
    match (if it.hasSubmittedBy then
             dataclassCall userFields userCallKwargsAuthor
           else Except.ok ()) with
    | Except.error e => Except.error e
    | Except.ok _ =>
      match (if it.hasSubmittedOnDailyBy then
               dataclassCall userFields userCallKwargsSubmittedOnDaily
             else Except.ok ()) with
      | Except.error e => Except.error e
      | Except.ok _ =>
        match dataclassCall paperFields paperCallKwargs with
        | Except.error e => Except.error e
        | Except.ok _ => Except.ok placeholderPaper

/-- The conversion loop `for item in papers_data:` with accumulator
`papers`; items without a `"paper"` key are skipped. -/
def convertItems : List ApiItem → List Paper → Except String (List Paper)
  | [], acc => Except.ok acc
  | it :: rest, acc =>
    if it.hasPaper then
      match convertItem it with
      | Except.error e => Except.error e
      | Except.ok p => convertItems rest (acc ++ [p])
    else convertItems rest acc

/-- `_fetch_daily_papers`, as a function of the HTTP outcome: a request
error (`requests.RequestException`) returns `[]`, a conversion error
(caught by the blanket `except Exception`) returns `[]`, otherwise the
converted list is returned. -/
def fetch_daily_papers (resp : Except String (List ApiItem)) : List Paper :=
  match resp with
  | Except.error _ => []
  | Except.ok items =>
    match convertItems items [] with
    | Except.error _ => []
    | Except.ok papers => papers

/-- `paper_discovery_node`, as a function of the fetched paper list: an
empty (falsy) list ends the run at `END` with the top-level error
`"No papers fetched"`; otherwise the run proceeds to `map_extraction_node`
with `discovered_papers` set. -/
def paper_discovery_node (papers : List Paper) : Command :=
  if papers.isEmpty then
    { goto := Goto.END,
      update := { PipelineUpdate.empty with error := some "No papers fetched" } }
  else
    { goto := Goto.node MAP_EXTRACTION_NODE,
      update := { PipelineUpdate.empty with discovered_papers := some papers } }

/-! ### Fan-out simulation (nodes.py `map_extraction_node`) -/

/-- The `extracted_content` dict built at nodes.py lines 198-203 (the
timestamp comes from `datetime.now()`, passed here as an oracle value). -/
def mkExtractedContent (p : Paper) (ts : String) : ExtractedContent :=
  { status := "extracted", content := "placeholder", paper_id := p.id,
    extraction_timestamp := ts }

/-- The `analysis` dict built at nodes.py lines 226-233. -/
def mkAnalysis (p : Paper) (ts : String) : Analysis :=
  { status := "analyzed", paper_id := p.id,
    tldr := "Analysis placeholder for " ++ p.title,
    key_contributions := ["Contribution analysis for " ++ p.id],
    technical_insights := ["Technical insight for " ++ p.title],
    analysis_timestamp := ts }

/-- `map_extraction_node`: when `discovered_papers` is falsy (absent or
empty) it routes straight to delivery with only `processing_complete`
set; otherwise it loops over `enumerate(discovered_papers)`, filling
`extraction_results[idx]` and `analysis_results[idx]` and appending each
paper to `processed_papers`, then routes to delivery.  `extTs`/`anaTs` are
the `datetime.now()` oracles for the two timestamps. -/
def map_extraction_node (extTs anaTs : Nat → String)
    (st : PipelineStateIn) : Command :=
  match st.discovered_papers with
  | none =>
    { goto := Goto.node DELIVERY_NODE,
      update := { PipelineUpdate.empty with processing_complete := some true } }
  | some [] =>
    { goto := Goto.node DELIVERY_NODE,
      update := { PipelineUpdate.empty with processing_complete := some true } }
  | some (p0 :: ps) =>
    let papers := p0 :: ps
    let extraction_results :=
      papers.enum.foldl
        (fun d ip => PyDict.set d ip.1 (mkExtractedContent ip.2 (extTs ip.1))) []
    let analysis_results :=
      papers.enum.foldl
        (fun d ip => PyDict.set d ip.1 (mkAnalysis ip.2 (anaTs ip.1))) []
    { goto := Goto.node DELIVERY_NODE,
      update := { PipelineUpdate.empty with
                    processed_papers := some (papers.map some),
                    extraction_results := some extraction_results,
                    analysis_results := some analysis_results,
                    processing_complete := some true } }

/-! ### Fan-in (nodes.py `collect_results_node`)

The source's single loop over the arrived `SinglePaperState` list updates
three independent accumulators; it is modelled as three folds over the
same list in the same order. -/

/-- The `processed_papers.append(paper_state.get("paper"))` accumulation. -/
def collectProcessed (states : List SinglePaperState) : List (Option Paper) :=
  states.foldl (fun acc s => acc ++ [s.paper]) []

/-- One loop iteration's effect on `extraction_results`: written only when
the arrived state has an `extracted_content` key. -/
def extCollectStep (d : PyDict ExtractedContent) (s : SinglePaperState) :
    PyDict ExtractedContent :=
  match s.extracted_content with
  | some c => PyDict.set d s.paper_index c
  | none => d

/-- One loop iteration's effect on `analysis_results`. -/
def anaCollectStep (d : PyDict Analysis) (s : SinglePaperState) :
    PyDict Analysis :=
  match s.analysis with
  | some a => PyDict.set d s.paper_index a
  | none => d

/-- The `extraction_results` accumulation of the collect loop. -/
def collectExtraction (states : List SinglePaperState) :
    PyDict ExtractedContent :=
  states.foldl extCollectStep []

/-- The `analysis_results` accumulation of the collect loop. -/
def collectAnalysis (states : List SinglePaperState) : PyDict Analysis :=
  states.foldl anaCollectStep []

/-- `collect_results_node`: aggregates the arrived per-paper states (in
arrival order) and routes to delivery with `processing_complete` set. -/
def collect_results_node (states : List SinglePaperState) : Command :=
  { goto := Goto.node DELIVERY_NODE,
    update := { PipelineUpdate.empty with
                  processed_papers := some (collectProcessed states),
                  extraction_results := some (collectExtraction states),
                  analysis_results := some (collectAnalysis states),
                  processing_complete := some true } }

/-- `delivery_node`: ends the run with a `delivery_status` whose
`paper_count` is the length of `processed_papers` (defaulting to `[]`).
`ts` is the `datetime.now()` oracle. -/
def delivery_node (ts : String) (st : PipelineStateIn) : Command :=
  { goto := Goto.END,
    update := { PipelineUpdate.empty with
                  delivery_status := some
                    { delivered_at := ts, status := "delivered",
                      channel_count := 1,
                      paper_count := (st.processed_papers.getD []).length } } }

/-! ### Module imports (src/backend/pipeline/graph.py) -/

/-- The names defined at module level in src/backend/pipeline/nodes.py. -/
def nodesModuleDefs : List String :=
  ["_fetch_daily_papers", "paper_discovery_node", "map_extraction_node",
   "extract_single_paper_node", "analyze_single_paper_node",
   "collect_results_node", "delivery_node"]

/-- The names graph.py requests from the nodes module (lines 5-13). -/
def graphImportFromNodes : List String :=
  ["paper_discovery_node", "map_extraction_node",
   "process_single_paper_node", "extract_single_paper_node",
   "analyze_single_paper_node", "collect_results_node", "delivery_node"]

/-- Python `from module import a, b, ...`: fails with `ImportError` on the
first requested name the module does not define. -/
def fromImport (defs requested : List String) : Except String Unit :=
  match requested.find? (fun n => !defs.contains n) with
  | some n => Except.error ("ImportError: cannot import name " ++ n)
  | none => Except.ok ()

/-! ### Generic characterization machinery for the collect loop

Both dict accumulations of `collect_results_node` have the same shape: a
fold whose step writes `content s` under key `key s` when `content s` is
present.  `lastWrite` computes the value the final dict holds at a key:
the content of the last arriving state that wrote that key. -/

/-- Generic step of a conditional keyed write (the common shape of
`extCollectStep` and `anaCollectStep`). -/
def writeStep {α σ : Type} (key : σ → Nat) (content : σ → Option α)
    (d : PyDict α) (s : σ) : PyDict α :=
  match content s with
  | some c => PyDict.set d (key s) c
  | none => d

/-- The value held at key `k` after all writes of `l` (later writes win). -/
def lastWrite {α σ : Type} (key : σ → Nat) (content : σ → Option α) :
    List σ → Nat → Option α
  | [], _ => none
  | s :: rest, k =>
    match lastWrite key content rest k with
    | some c => some c
    | none => if key s = k then content s else none

/-! ### Concrete sample data used by counterexamples and witnesses -/

/-- A paper with only `id` and `title` distinguished. -/
def mkSimplePaper (pid ptitle : String) : Paper :=
  { placeholderPaper with
      core := { placeholderPaper.core with id := pid, title := ptitle } }

/-- Sample paper with index intended 0 or 1 depending on the state. -/
def paperA : Paper := mkSimplePaper "2401.00001" "Paper A"

/-- A second, distinct sample paper. -/
def paperB : Paper := mkSimplePaper "2401.00002" "Paper B"

/-- Sample extraction result for `paperA`. -/
def contentA : ExtractedContent :=
  { status := "extracted", content := "placeholder",
    paper_id := "2401.00001", extraction_timestamp := "t1" }

/-- Sample extraction result for `paperB`. -/
def contentB : ExtractedContent :=
  { status := "extracted", content := "placeholder",
    paper_id := "2401.00002", extraction_timestamp := "t2" }

/-- Arrived per-paper state: `paperA` at index 1 (arrives first). -/
def stateA1 : SinglePaperState :=
  { paper := some paperA, paper_index := 1,
    extracted_content := some contentA, analysis := none,
    pipeline_id := "run-1" }

/-- Arrived per-paper state: `paperB` at index 0 (arrives second). -/
def stateB0 : SinglePaperState :=
  { paper := some paperB, paper_index := 0,
    extracted_content := some contentB, analysis := none,
    pipeline_id := "run-1" }

/-- Duplicate-index pair, earlier arrival: `paperA` at index 0. -/
def stateDupA : SinglePaperState :=
  { paper := some paperA, paper_index := 0,
    extracted_content := some contentA, analysis := none,
    pipeline_id := "run-1" }

/-- Duplicate-index pair, later arrival: `paperB` also at index 0. -/
def stateDupB : SinglePaperState :=
  { paper := some paperB, paper_index := 0,
    extracted_content := some contentB, analysis := none,
    pipeline_id := "run-1" }

/-- An arrived state carrying neither an extraction result nor an
analysis (a failed item, in the spec's terms). -/
def stateNoRecord : SinglePaperState :=
  { paper := some paperA, paper_index := 0,
    extracted_content := none, analysis := none,
    pipeline_id := "run-1" }

/-- A sample item of the daily-papers JSON array that has a `"paper"` key
(no authors, no submitter data). -/
def sampleApiItem : ApiItem :=
  { hasPaper := true, authorsHaveUser := [], hasSubmittedBy := false,
    hasSubmittedOnDailyBy := false }

/-- Sample author. -/
def authorX : Author :=
  { id := "a1", name := "Xavier", user := none, status := none,
    status_last_changed_at := none, hidden := none }

/-- A second sample author. -/
def authorY : Author :=
  { id := "a2", name := "Yvonne", user := none, status := none,
    status_last_changed_at := none, hidden := none }

/-- A paper with exactly two authors. -/
def paperTwoAuthors : Paper :=
  { placeholderPaper with
      core := { placeholderPaper.core with authors := [authorX, authorY] } }

/-! ### Helper lemmas: PyDict -/

theorem pydict_get_set_self {α : Type} : ∀ (d : PyDict α) (k : Nat) (v : α),
    PyDict.get? (PyDict.set d k v) k = some v
  | [], k, v => by simp [PyDict.set, PyDict.get?]
  | (k1, v1) :: rest, k, v => by
    by_cases h : k1 = k
    · simp [PyDict.set, PyDict.get?, h]
    · simp [PyDict.set, PyDict.get?, h, pydict_get_set_self rest k v]

theorem pydict_get_set_ne {α : Type} : ∀ (d : PyDict α) (k k2 : Nat) (v : α),
    k ≠ k2 → PyDict.get? (PyDict.set d k v) k2 = PyDict.get? d k2
  | [], k, k2, v, h => by simp [PyDict.set, PyDict.get?, h]
  | (k1, v1) :: rest, k, k2, v, h => by
    by_cases h1 : k1 = k
    · subst h1; simp [PyDict.set, PyDict.get?, h]
    · by_cases h2 : k1 = k2
      · subst h2
        simp [PyDict.set, PyDict.get?, h1]
      · simp [PyDict.set, PyDict.get?, h1, h2,
              pydict_get_set_ne rest k k2 v h]

theorem pydict_keys_set_fresh {α : Type} : ∀ (d : PyDict α) (k : Nat) (v : α),
    k ∉ PyDict.keys d → PyDict.keys (PyDict.set d k v) = PyDict.keys d ++ [k]
  | [], k, v, _ => by simp [PyDict.set, PyDict.keys]
  | (k1, v1) :: rest, k, v, h => by
    have hne : k1 ≠ k := by
      intro e
      exact h (by simp [PyDict.keys, e])
    have hrest : k ∉ PyDict.keys rest := by
      intro hm
      refine h ?_
      simp only [PyDict.keys, List.map_cons, List.mem_cons]
      exact Or.inr hm
    show PyDict.keys
        (if k1 = k then (k, v) :: rest else (k1, v1) :: PyDict.set rest k v) = _
    rw [if_neg hne]
    show k1 :: PyDict.keys (PyDict.set rest k v) = _
    rw [pydict_keys_set_fresh rest k v hrest]
    rfl

theorem pydict_keys_foldl_set {α π : Type} (f : Nat × π → α) :
    ∀ (l : List (Nat × π)) (d : PyDict α),
    (∀ p ∈ l, p.1 ∉ PyDict.keys d) → (l.map Prod.fst).Nodup →
    PyDict.keys (l.foldl (fun d2 ip => PyDict.set d2 ip.1 (f ip)) d) =
      PyDict.keys d ++ l.map Prod.fst
  | [], d, _, _ => by simp
  | ip :: rest, d, hfresh, hnodup => by
    have hipd : ip.1 ∉ PyDict.keys d := hfresh ip (List.mem_cons_self ip rest)
    have hnodup2 : (ip.1 :: rest.map Prod.fst).Nodup := hnodup
    have hnd1 : ip.1 ∉ rest.map Prod.fst := (List.nodup_cons.mp hnodup2).1
    have hfresh2 : ∀ q ∈ rest, q.1 ∉ PyDict.keys (PyDict.set d ip.1 (f ip)) := by
      intro q hq
      rw [pydict_keys_set_fresh d ip.1 (f ip) hipd]
      intro hmem
      rcases List.mem_append.mp hmem with hmem1 | hmem1
      · exact hfresh q (List.mem_cons_of_mem ip hq) hmem1
      · have : q.1 = ip.1 := by simpa using hmem1
        exact hnd1 (this ▸ List.mem_map_of_mem Prod.fst hq)
    have hnd2 : (rest.map Prod.fst).Nodup := (List.nodup_cons.mp hnodup2).2
    calc PyDict.keys
          ((ip :: rest).foldl (fun d2 p => PyDict.set d2 p.1 (f p)) d)
        = PyDict.keys
            (rest.foldl (fun d2 p => PyDict.set d2 p.1 (f p))
              (PyDict.set d ip.1 (f ip))) := by simp
      _ = PyDict.keys (PyDict.set d ip.1 (f ip)) ++ rest.map Prod.fst :=
            pydict_keys_foldl_set f rest _ hfresh2 hnd2
      _ = (PyDict.keys d ++ [ip.1]) ++ rest.map Prod.fst := by
            rw [pydict_keys_set_fresh d ip.1 (f ip) hipd]
      _ = PyDict.keys d ++ (ip :: rest).map Prod.fst := by simp

/-! ### Helper lemmas: the collect loop -/

theorem foldl_append_papers :
    ∀ (l : List SinglePaperState) (acc : List (Option Paper)),
    l.foldl (fun a s => a ++ [s.paper]) acc = acc ++ l.map (fun s => s.paper)
  | [], acc => by simp
  | s :: rest, acc => by
    simp [foldl_append_papers rest (acc ++ [s.paper])]

theorem collectProcessed_eq_map (l : List SinglePaperState) :
    collectProcessed l = l.map (fun s => s.paper) := by
  simpa [collectProcessed] using foldl_append_papers l []

theorem pydict_get_foldl_writeStep {α σ : Type} (key : σ → Nat)
    (content : σ → Option α) :
    ∀ (l : List σ) (d : PyDict α) (k : Nat),
    PyDict.get? (l.foldl (writeStep key content) d) k =
      match lastWrite key content l k with
      | some c => some c
      | none => PyDict.get? d k
  | [], d, k => by simp [lastWrite]
  | s :: rest, d, k => by
    rw [List.foldl_cons,
        pydict_get_foldl_writeStep key content rest
          (writeStep key content d s) k]
    cases hrest : lastWrite key content rest k with
    | some c => simp [lastWrite, hrest]
    | none =>
      simp only [lastWrite, hrest]
      cases hc : content s with
      | some c =>
        by_cases hk : key s = k
        · simp [writeStep, hc, hk, pydict_get_set_self]
        · simp [writeStep, hc, hk, pydict_get_set_ne _ _ _ _ hk]
      | none =>
        by_cases hk : key s = k <;> simp [writeStep, hc, hk]

theorem extCollectStep_eq_writeStep :
    extCollectStep =
      writeStep (fun s => s.paper_index) (fun s => s.extracted_content) := by
  funext d s
  cases h : s.extracted_content <;> simp [extCollectStep, writeStep, h]

theorem anaCollectStep_eq_writeStep :
    anaCollectStep =
      writeStep (fun s => s.paper_index) (fun s => s.analysis) := by
  funext d s
  cases h : s.analysis <;> simp [anaCollectStep, writeStep, h]

theorem collectExtraction_get (l : List SinglePaperState) (k : Nat) :
    PyDict.get? (collectExtraction l) k =
      lastWrite (fun s => s.paper_index) (fun s => s.extracted_content) l k := by
  rw [collectExtraction, extCollectStep_eq_writeStep,
      pydict_get_foldl_writeStep]
  cases lastWrite (fun s => s.paper_index)
      (fun s => s.extracted_content) l k <;> rfl

theorem collectAnalysis_get (l : List SinglePaperState) (k : Nat) :
    PyDict.get? (collectAnalysis l) k =
      lastWrite (fun s => s.paper_index) (fun s => s.analysis) l k := by
  rw [collectAnalysis, anaCollectStep_eq_writeStep,
      pydict_get_foldl_writeStep]
  cases lastWrite (fun s => s.paper_index)
      (fun s => s.analysis) l k <;> rfl

/-! ### Helper lemmas: lastWrite -/

theorem lastWrite_none_of_no_key {α σ : Type} (key : σ → Nat)
    (content : σ → Option α) :
    ∀ (l : List σ) (k : Nat), (∀ s ∈ l, key s ≠ k) →
    lastWrite key content l k = none
  | [], _, _ => rfl
  | s :: rest, k, h => by
    have hrest := lastWrite_none_of_no_key key content rest k
      (fun t ht => h t (List.mem_cons_of_mem s ht))
    simp [lastWrite, hrest, h s (List.mem_cons_self s rest)]

theorem lastWrite_some_exists {α σ : Type} (key : σ → Nat)
    (content : σ → Option α) :
    ∀ (l : List σ) (k : Nat) (c : α),
    lastWrite key content l k = some c →
    ∃ s ∈ l, key s = k ∧ content s = some c
  | [], k, c, h => by simp [lastWrite] at h
  | s :: rest, k, c, h => by
    cases hrest : lastWrite key content rest k with
    | some c2 =>
      rw [lastWrite, hrest] at h
      obtain ⟨t, ht, hk, hc⟩ :=
        lastWrite_some_exists key content rest k c (hrest.trans h)
      exact ⟨t, List.mem_cons_of_mem s ht, hk, hc⟩
    | none =>
      rw [lastWrite, hrest] at h
      by_cases hk : key s = k
      · rw [if_pos hk] at h
        exact ⟨s, List.mem_cons_self s rest, hk, h⟩
      · rw [if_neg hk] at h
        exact absurd h (by simp)

/-- The filter of a state list down to the states writing key `k`. -/
def keyFilter {σ : Type} (key : σ → Nat) (k : Nat) (l : List σ) : List σ :=
  l.filter (fun s => key s == k)

theorem keyFilter_nil_of_no_key {σ : Type} (key : σ → Nat) (k : Nat)
    (l : List σ) (h : ∀ s ∈ l, key s ≠ k) : keyFilter key k l = [] := by
  rw [keyFilter, List.filter_eq_nil_iff]
  intro s hs
  simpa using h s hs

theorem lastWrite_eq_head_keyFilter {α σ : Type} (key : σ → Nat)
    (content : σ → Option α) :
    ∀ (l : List σ) (k : Nat), (l.map key).Nodup →
    lastWrite key content l k = (keyFilter key k l).head?.bind content
  | [], k, _ => rfl
  | s :: rest, k, hnd => by
    have hnd1 : key s ∉ rest.map key :=
      (List.nodup_cons.mp (by simpa using hnd)).1
    have hnd2 : (rest.map key).Nodup :=
      (List.nodup_cons.mp (by simpa using hnd)).2
    by_cases hk : key s = k
    · have hrestnone : ∀ t ∈ rest, key t ≠ k := by
        intro t ht he
        exact hnd1 (by rw [hk, ← he]; exact List.mem_map_of_mem key ht)
      have h1 := lastWrite_none_of_no_key key content rest k hrestnone
      have h2 := keyFilter_nil_of_no_key key k rest hrestnone
      simp [lastWrite, h1, hk, keyFilter, h2]
    · have h2 : keyFilter key k (s :: rest) = keyFilter key k rest := by
        simp [keyFilter, List.filter_cons, hk]
      rw [h2, ← lastWrite_eq_head_keyFilter key content rest k hnd2]
      cases hrest : lastWrite key content rest k with
      | some c => simp [lastWrite, hrest]
      | none => simp [lastWrite, hrest, hk]

theorem keyFilter_head_perm {σ : Type} (key : σ → Nat) (k : Nat)
    (l l2 : List σ) (h : l.Perm l2) (hnd : (l.map key).Nodup) :
    (keyFilter key k l).head? = (keyFilter key k l2).head? := by
  have hp : (keyFilter key k l).Perm (keyFilter key k l2) :=
    h.filter (fun s => key s == k)
  cases hf : keyFilter key k l with
  | nil =>
    rw [hf] at hp
    rw [hp.symm.eq_nil]
  | cons s t =>
    cases t with
    | nil =>
      rw [hf] at hp
      rw [List.perm_singleton.mp hp.symm]
    | cons u t2 =>
      exfalso
      have hsub : (keyFilter key k l).Sublist l := List.filter_sublist l
      have hndf : ((keyFilter key k l).map key).Nodup :=
        List.Nodup.sublist (hsub.map key) hnd
      have hs : key s = k := by
        have : s ∈ keyFilter key k l := by rw [hf]; exact List.mem_cons_self s _
        have := List.of_mem_filter this
        simpa using this
      have hu : key u = k := by
        have : u ∈ keyFilter key k l := by
          rw [hf]
          exact List.mem_cons_of_mem s (List.mem_cons_self u t2)
        have := List.of_mem_filter this
        simpa using this
      rw [hf] at hndf
      simp only [List.map_cons, List.nodup_cons, List.mem_cons] at hndf
      exact hndf.1 (Or.inl (hs.trans hu.symm))

theorem lastWrite_perm {α σ : Type} (key : σ → Nat) (content : σ → Option α)
    (l l2 : List σ) (h : l.Perm l2) (hnd : (l.map key).Nodup) (k : Nat) :
    lastWrite key content l k = lastWrite key content l2 k := by
  have hnd2 : (l2.map key).Nodup := ((h.map key).nodup_iff).mp hnd
  rw [lastWrite_eq_head_keyFilter key content l k hnd,
      lastWrite_eq_head_keyFilter key content l2 k hnd2,
      keyFilter_head_perm key k l l2 h hnd]

/-! ### Helper lemmas: the conversion loop of the fetch -/

theorem dataclassCall_paper_error :
    dataclassCall paperFields paperCallKwargs =
      Except.error "TypeError: unexpected keyword argument id" := by
  rfl

theorem dataclassCall_userAuthor_error :
    dataclassCall userFields userCallKwargsAuthor =
      Except.error "TypeError: unexpected keyword argument avatar_url" := by
  rfl

theorem convertItem_isError (it : ApiItem) :
    ∃ e, convertItem it = Except.error e := by
  cases h1 : buildAuthors it.authorsHaveUser with
  | error e => exact ⟨e, by rw [convertItem, h1]⟩
  | ok u =>
    cases h2 : (if it.hasSubmittedBy then
        dataclassCall userFields userCallKwargsAuthor
      else Except.ok ()) with
    | error e => exact ⟨e, by rw [convertItem, h1, h2]⟩
    | ok u2 =>
      cases h3 : (if it.hasSubmittedOnDailyBy then
          dataclassCall userFields userCallKwargsSubmittedOnDaily
        else Except.ok ()) with
      | error e => exact ⟨e, by rw [convertItem, h1, h2, h3]⟩
      | ok u3 =>
        exact ⟨"TypeError: unexpected keyword argument id",
          by rw [convertItem, h1, h2, h3, dataclassCall_paper_error]⟩

theorem convertItems_error_of_hasPaper :
    ∀ (items : List ApiItem) (acc : List Paper),
    (∃ it ∈ items, it.hasPaper = true) →
    ∃ e, convertItems items acc = Except.error e
  | [], _, h => by simp at h
  | it :: rest, acc, h => by
    by_cases hp : it.hasPaper
    · obtain ⟨e, he⟩ := convertItem_isError it
      refine ⟨e, ?_⟩
      simp only [convertItems]
      rw [if_pos hp, he]
    · obtain ⟨w, hw, hwp⟩ := h
      rcases List.mem_cons.mp hw with rfl | hw2
      · exact absurd hwp hp
      · obtain ⟨e, he⟩ :=
          convertItems_error_of_hasPaper rest acc ⟨w, hw2, hwp⟩
        refine ⟨e, ?_⟩
        simp only [convertItems]
        rw [if_neg hp]
        exact he

theorem convertItems_ok_eq :
    ∀ (items : List ApiItem) (acc l : List Paper),
    convertItems items acc = Except.ok l → l = acc
  | [], acc, l, h => by
    simp only [convertItems] at h
    exact (Except.ok.inj h).symm
  | it :: rest, acc, l, h => by
    simp only [convertItems] at h
    by_cases hp : it.hasPaper
    · rw [if_pos hp] at h
      obtain ⟨e, he⟩ := convertItem_isError it
      rw [he] at h
      exact absurd h (by simp)
    · rw [if_neg hp] at h
      exact convertItems_ok_eq rest acc l h

theorem fetch_daily_papers_empty (resp : Except String (List ApiItem)) :
    fetch_daily_papers resp = [] := by
  cases resp with
  | error e => rfl
  | ok items =>
    cases h : convertItems items [] with
    | error e => simp [fetch_daily_papers, h]
    | ok papers =>
      simp [fetch_daily_papers, h, convertItems_ok_eq items [] papers h]

/-! ### Claim theorems -/

/-- Claim C1, counterexample: when the fetched paper list is empty,
`paper_discovery_node` does not route to delivery; it ends the run at
`END` and sets the top-level error `"No papers fetched"`, contradicting
the claim that an empty discovery still executes delivery with no error. -/
theorem c1_counterexample :
    (paper_discovery_node []).goto = Goto.END ∧
    (paper_discovery_node []).update.error = some "No papers fetched" ∧
    (paper_discovery_node []).goto ≠ Goto.node DELIVERY_NODE ∧
    (paper_discovery_node []).goto ≠ Goto.node MAP_EXTRACTION_NODE := by
  refine ⟨rfl, rfl, by decide, by decide⟩

/-- Claim C1, amended: when the fetched paper list is empty,
`paper_discovery_node` ends the run at `END` with the top-level error
`"No papers fetched"` (delivery is not reached from discovery); the
empty-list-to-delivery path exists only in `map_extraction_node`, which
does route an empty `discovered_papers` state to `delivery_node` without
an error. -/
theorem c1_amended (papers : List Paper) (h : papers = []) :
    (paper_discovery_node papers).goto = Goto.END ∧
    (paper_discovery_node papers).update.error = some "No papers fetched" ∧
    ∀ extTs anaTs pid,
      (map_extraction_node extTs anaTs
        { pipeline_id := pid, discovered_papers := some papers,
          processed_papers := none }).goto = Goto.node DELIVERY_NODE ∧
      (map_extraction_node extTs anaTs
        { pipeline_id := pid, discovered_papers := some papers,
          processed_papers := none }).update.error = none := by
  subst h
  exact ⟨rfl, rfl, fun extTs anaTs pid => ⟨rfl, rfl⟩⟩

/-- Claim C1, witness for the amended theorem at the empty list. -/
theorem c1_amended_witness :
    (paper_discovery_node []).goto = Goto.END ∧
    (paper_discovery_node []).update.error = some "No papers fetched" := by
  have h := c1_amended [] rfl
  exact ⟨h.1, h.2.1⟩

/-- Claim C2, counterexample: with arrival order `[stateA1, stateB0]`
(indices 1 then 0), `collect_results_node` emits `processed_papers` in
arrival order `[paperA, paperB]`, not in the index-ascending order
`[paperB, paperA]` the claim requires. -/
theorem c2_counterexample :
    (collect_results_node [stateA1, stateB0]).update.processed_papers =
      some [some paperA, some paperB] ∧
    (collect_results_node [stateA1, stateB0]).update.processed_papers ≠
      some [some paperB, some paperA] := by
  exact ⟨rfl, by decide⟩

/-- Claim C2, amended: `collect_results_node` does not normalize arrival
order; `processed_papers` is exactly the arrived states' papers in
arrival order. -/
theorem c2_amended (states : List SinglePaperState) :
    (collect_results_node states).update.processed_papers =
      some (states.map (fun s => s.paper)) := by
  simp [collect_results_node, collectProcessed_eq_map]

/-- Claim C3, counterexample: the two orders of the same outcome pair
produce different aggregated results (their `processed_papers` differ),
so aggregation is not order-independent. -/
theorem c3_counterexample :
    List.Perm [stateA1, stateB0] [stateB0, stateA1] ∧
    collect_results_node [stateA1, stateB0] ≠
      collect_results_node [stateB0, stateA1] := by
  exact ⟨List.Perm.swap stateB0 stateA1 [], by decide⟩

/-- Claim C3, amended: for outcome lists with pairwise-distinct indices,
any permutation yields the same `extraction_results` and
`analysis_results` as key-value maps, the same completion flag and goto;
`processed_papers`, however, follows arrival order and is only permuted
accordingly. -/
theorem c3_amended (l l2 : List SinglePaperState) (hperm : l.Perm l2)
    (hnd : (l.map (fun s => s.paper_index)).Nodup) :
    (∀ k, PyDict.get?
        ((collect_results_node l).update.extraction_results.getD []) k =
      PyDict.get?
        ((collect_results_node l2).update.extraction_results.getD []) k) ∧
    (∀ k, PyDict.get?
        ((collect_results_node l).update.analysis_results.getD []) k =
      PyDict.get?
        ((collect_results_node l2).update.analysis_results.getD []) k) ∧
    (collect_results_node l).update.processing_complete =
      (collect_results_node l2).update.processing_complete ∧
    (collect_results_node l).goto = (collect_results_node l2).goto ∧
    ((collect_results_node l).update.processed_papers.getD []).Perm
      ((collect_results_node l2).update.processed_papers.getD []) := by
  refine ⟨?_, ?_, rfl, rfl, ?_⟩
  · intro k
    show PyDict.get? (collectExtraction l) k =
      PyDict.get? (collectExtraction l2) k
    rw [collectExtraction_get, collectExtraction_get]
    exact lastWrite_perm _ _ l l2 hperm hnd k
  · intro k
    show PyDict.get? (collectAnalysis l) k =
      PyDict.get? (collectAnalysis l2) k
    rw [collectAnalysis_get, collectAnalysis_get]
    exact lastWrite_perm _ _ l l2 hperm hnd k
  · show (collectProcessed l).Perm (collectProcessed l2)
    rw [collectProcessed_eq_map, collectProcessed_eq_map]
    exact hperm.map _

/-- Claim C3, witness for the amended theorem on a concrete swapped pair
with distinct indices. -/
theorem c3_amended_witness :
    PyDict.get?
      ((collect_results_node [stateA1, stateB0]).update.extraction_results.getD []) 0 =
    PyDict.get?
      ((collect_results_node [stateB0, stateA1]).update.extraction_results.getD []) 0 ∧
    ((collect_results_node [stateA1, stateB0]).update.processed_papers.getD []).Perm
      ((collect_results_node [stateB0, stateA1]).update.processed_papers.getD []) := by
  have h := c3_amended [stateA1, stateB0] [stateB0, stateA1]
    (List.Perm.swap stateB0 stateA1 []) (by decide)
  exact ⟨h.1 0, h.2.2.2.2⟩

/-- Claim C4, counterexample: two outcomes sharing index 0 are both
accepted; `collect_results_node` returns a normal result (goto delivery,
complete, no error) in which the later arrival's extraction entry is the
only one kept at index 0 — a silent overwrite, not a loud rejection. -/
theorem c4_counterexample :
    (collect_results_node [stateDupA, stateDupB]).goto =
      Goto.node DELIVERY_NODE ∧
    (collect_results_node [stateDupA, stateDupB]).update.processing_complete =
      some true ∧
    (collect_results_node [stateDupA, stateDupB]).update.error = none ∧
    PyDict.get?
      ((collect_results_node [stateDupA, stateDupB]).update.extraction_results.getD [])
      0 = some contentB ∧
    contentA ≠ contentB := by
  refine ⟨rfl, rfl, rfl, rfl, by decide⟩

/-- Claim C4, amended: `collect_results_node` performs no duplicate-index
detection: when two arrived states share an index and both carry
extraction results, it returns a normal delivery-bound command whose
extraction entry at that index is the later arrival's (the earlier is
silently overwritten), while `processed_papers` retains both papers. -/
theorem c4_amended (s1 s2 : SinglePaperState) (c1 c2 : ExtractedContent)
    (hidx : s1.paper_index = s2.paper_index)
    (h1 : s1.extracted_content = some c1)
    (h2 : s2.extracted_content = some c2) :
    (collect_results_node [s1, s2]).goto = Goto.node DELIVERY_NODE ∧
    PyDict.get?
      ((collect_results_node [s1, s2]).update.extraction_results.getD [])
      s1.paper_index = some c2 ∧
    (collect_results_node [s1, s2]).update.processed_papers =
      some [s1.paper, s2.paper] := by
  refine ⟨rfl, ?_, ?_⟩
  · show PyDict.get? (extCollectStep (extCollectStep [] s1) s2)
      s1.paper_index = some c2
    rw [hidx]
    simp only [extCollectStep, h1, h2]
    exact pydict_get_set_self _ _ _
  · show some (collectProcessed [s1, s2]) = some [s1.paper, s2.paper]
    rw [collectProcessed_eq_map]
    rfl

/-- Claim C4, witness for the amended theorem at the concrete
duplicate-index pair. -/
theorem c4_amended_witness :
    (collect_results_node [stateDupA, stateDupB]).goto =
      Goto.node DELIVERY_NODE ∧
    PyDict.get?
      ((collect_results_node [stateDupA, stateDupB]).update.extraction_results.getD [])
      stateDupA.paper_index = some contentB ∧
    (collect_results_node [stateDupA, stateDupB]).update.processed_papers =
      some [stateDupA.paper, stateDupB.paper] :=
  c4_amended stateDupA stateDupB contentA contentB rfl rfl rfl

/-- Claim C5, counterexample: an arrived state carrying neither an
extraction result nor an analysis (a failed item) still contributes to
`processed_papers`, but no per-index record at all is kept for it: the
equality between the processed count and the count of indices recorded
as success or failure fails (1 vs 0). -/
theorem c5_counterexample :
    ((collect_results_node [stateNoRecord]).update.processed_papers.getD []).length = 1 ∧
    PyDict.keys
      ((collect_results_node [stateNoRecord]).update.extraction_results.getD []) = [] ∧
    PyDict.keys
      ((collect_results_node [stateNoRecord]).update.analysis_results.getD []) = [] ∧
    ((collect_results_node [stateNoRecord]).update.processed_papers.getD []).length ≠
      (PyDict.keys
        ((collect_results_node [stateNoRecord]).update.extraction_results.getD []) ++
       PyDict.keys
        ((collect_results_node [stateNoRecord]).update.analysis_results.getD [])).length := by
  refine ⟨rfl, rfl, rfl, by decide⟩

/-- Claim C5, amended: every arrived outcome contributes exactly one
entry to `processed_papers` (its length equals the number of arrived
states), and every extraction entry comes from some arrived state with
that index; there is no separate failure record, so states without an
extraction result leave no per-index trace. -/
theorem c5_amended (states : List SinglePaperState) :
    ((collect_results_node states).update.processed_papers.getD []).length =
      states.length ∧
    ∀ k c,
      PyDict.get?
        ((collect_results_node states).update.extraction_results.getD []) k =
        some c →
      ∃ s ∈ states, s.paper_index = k ∧ s.extracted_content = some c := by
  constructor
  · show (collectProcessed states).length = states.length
    rw [collectProcessed_eq_map, List.length_map]
  · intro k c h
    replace h : PyDict.get? (collectExtraction states) k = some c := h
    rw [collectExtraction_get] at h
    exact lastWrite_some_exists _ _ states k c h

/-- Claim C5, witness for the amended theorem at a concrete single-state
list whose extraction entry is present. -/
theorem c5_amended_witness :
    ((collect_results_node [stateA1]).update.processed_papers.getD []).length = 1 ∧
    ∃ s ∈ [stateA1], s.paper_index = 1 ∧ s.extracted_content = some contentA := by
  have h := c5_amended [stateA1]
  exact ⟨h.1, h.2 1 contentA rfl⟩

/-- Claim C6: when the paper fetch raises (request error or conversion
error) or yields no usable data, `paper_discovery_node` ends the run at
`END` with the top-level error set, routes to neither the extraction
fan-out nor delivery, and publishes no discovered papers. -/
theorem c6_discovery_failure (resp : Except String (List ApiItem))
    (h : (∃ e, resp = Except.error e) ∨ fetch_daily_papers resp = []) :
    (paper_discovery_node (fetch_daily_papers resp)).goto = Goto.END ∧
    (paper_discovery_node (fetch_daily_papers resp)).update.error =
      some "No papers fetched" ∧
    (paper_discovery_node (fetch_daily_papers resp)).update.discovered_papers =
      none ∧
    (paper_discovery_node (fetch_daily_papers resp)).goto ≠
      Goto.node MAP_EXTRACTION_NODE ∧
    (paper_discovery_node (fetch_daily_papers resp)).goto ≠
      Goto.node DELIVERY_NODE := by
  have hempty : fetch_daily_papers resp = [] := by
    rcases h with ⟨e, he⟩ | he
    · rw [he]; rfl
    · exact he
  rw [hempty]
  exact ⟨rfl, rfl, rfl, by decide, by decide⟩

/-- Claim C6, witness at a concrete failing fetch. -/
theorem c6_witness :
    (paper_discovery_node
      (fetch_daily_papers (Except.error "ConnectionError"))).goto = Goto.END ∧
    (paper_discovery_node
      (fetch_daily_papers (Except.error "ConnectionError"))).update.error =
      some "No papers fetched" := by
  have h := c6_discovery_failure (Except.error "ConnectionError")
    (Or.inl ⟨"ConnectionError", rfl⟩)
  exact ⟨h.1, h.2.1⟩

/-- Claim C7: for every non-empty discovered list of N papers, the state
handed to the delivery node by `map_extraction_node` accounts for exactly
N outcomes: `processed_papers` has length N, the key sets of
`extraction_results` and `analysis_results` are exactly 0..N-1, and the
completion flag is set, with no error. -/
theorem c7_join_completeness (extTs anaTs : Nat → String) (pid : String)
    (papers : List Paper) (h : papers ≠ []) :
    (map_extraction_node extTs anaTs
      { pipeline_id := pid, discovered_papers := some papers,
        processed_papers := none }).goto = Goto.node DELIVERY_NODE ∧
    (map_extraction_node extTs anaTs
      { pipeline_id := pid, discovered_papers := some papers,
        processed_papers := none }).update.processed_papers =
      some (papers.map some) ∧
    ((map_extraction_node extTs anaTs
      { pipeline_id := pid, discovered_papers := some papers,
        processed_papers := none }).update.processed_papers.getD []).length =
      papers.length ∧
    PyDict.keys ((map_extraction_node extTs anaTs
      { pipeline_id := pid, discovered_papers := some papers,
        processed_papers := none }).update.extraction_results.getD []) =
      List.range papers.length ∧
    PyDict.keys ((map_extraction_node extTs anaTs
      { pipeline_id := pid, discovered_papers := some papers,
        processed_papers := none }).update.analysis_results.getD []) =
      List.range papers.length ∧
    (map_extraction_node extTs anaTs
      { pipeline_id := pid, discovered_papers := some papers,
        processed_papers := none }).update.processing_complete = some true ∧
    (map_extraction_node extTs anaTs
      { pipeline_id := pid, discovered_papers := some papers,
        processed_papers := none }).update.error = none := by
  cases papers with
  | nil => exact absurd rfl h
  | cons p0 ps =>
    refine ⟨rfl, rfl, ?_, ?_, ?_, rfl, rfl⟩
    · show ((p0 :: ps).map some).length = (p0 :: ps).length
      rw [List.length_map]
    · calc PyDict.keys ((p0 :: ps).enum.foldl
            (fun d ip => PyDict.set d ip.1 (mkExtractedContent ip.2 (extTs ip.1)))
            [])
          = PyDict.keys ([] : PyDict ExtractedContent) ++
              (p0 :: ps).enum.map Prod.fst :=
            pydict_keys_foldl_set
              (fun ip => mkExtractedContent ip.2 (extTs ip.1)) (p0 :: ps).enum
              [] (fun p hp => by simp [PyDict.keys])
              (List.nodup_enum_map_fst _)
        _ = List.range (p0 :: ps).length := by
            rw [List.enum_map_fst]
            rfl
    · calc PyDict.keys ((p0 :: ps).enum.foldl
            (fun d ip => PyDict.set d ip.1 (mkAnalysis ip.2 (anaTs ip.1)))
            [])
          = PyDict.keys ([] : PyDict Analysis) ++
              (p0 :: ps).enum.map Prod.fst :=
            pydict_keys_foldl_set
              (fun ip => mkAnalysis ip.2 (anaTs ip.1)) (p0 :: ps).enum
              [] (fun p hp => by simp [PyDict.keys])
              (List.nodup_enum_map_fst _)
        _ = List.range (p0 :: ps).length := by
            rw [List.enum_map_fst]
            rfl

/-- Claim C7, witness on a concrete two-paper list. -/
theorem c7_witness :
    (map_extraction_node (fun _ => "te") (fun _ => "ta")
      { pipeline_id := "run-1", discovered_papers := some [paperA, paperB],
        processed_papers := none }).update.processed_papers =
      some [some paperA, some paperB] ∧
    PyDict.keys ((map_extraction_node (fun _ => "te") (fun _ => "ta")
      { pipeline_id := "run-1", discovered_papers := some [paperA, paperB],
        processed_papers := none }).update.extraction_results.getD []) =
      List.range 2 ∧
    (map_extraction_node (fun _ => "te") (fun _ => "ta")
      { pipeline_id := "run-1", discovered_papers := some [paperA, paperB],
        processed_papers := none }).update.processing_complete = some true := by
  have h := c7_join_completeness (fun _ => "te") (fun _ => "ta") "run-1"
    [paperA, paperB] (by simp)
  exact ⟨h.2.1, h.2.2.2.1, h.2.2.2.2.2.1⟩

/-- Claim C8: the `Paper` and `User` dataclass calls of
`_fetch_daily_papers` pass keyword arguments that are not fields of those
dataclasses, so any response containing an entry with a `"paper"` key
raises `TypeError`, which the blanket handler swallows into `[]`;
consequently `paper_discovery_node` always ends the run with the error
`"No papers fetched"`, whatever the source returned. -/
theorem c8_fetch_always_fails (items : List ApiItem)
    (h : ∃ it ∈ items, it.hasPaper = true) :
    (∃ e, convertItems items [] = Except.error e) ∧
    fetch_daily_papers (Except.ok items) = [] ∧
    (∃ e, dataclassCall paperFields paperCallKwargs = Except.error e) ∧
    (∃ e, dataclassCall userFields userCallKwargsAuthor = Except.error e) ∧
    ∀ resp,
      (paper_discovery_node (fetch_daily_papers resp)).goto = Goto.END ∧
      (paper_discovery_node (fetch_daily_papers resp)).update.error =
        some "No papers fetched" := by
  refine ⟨convertItems_error_of_hasPaper items [] h,
    fetch_daily_papers_empty _,
    ⟨_, dataclassCall_paper_error⟩,
    ⟨_, dataclassCall_userAuthor_error⟩, ?_⟩
  intro resp
  rw [fetch_daily_papers_empty resp]
  exact ⟨rfl, rfl⟩

/-- Claim C8, witness at a one-entry response whose entry has a `"paper"`
key. -/
theorem c8_witness :
    fetch_daily_papers (Except.ok [sampleApiItem]) = [] ∧
    (paper_discovery_node
      (fetch_daily_papers (Except.ok [sampleApiItem]))).update.error =
      some "No papers fetched" := by
  have h := c8_fetch_always_fails [sampleApiItem]
    ⟨sampleApiItem, List.mem_cons_self _ _, rfl⟩
  exact ⟨h.2.1, (h.2.2.2.2 (Except.ok [sampleApiItem])).2⟩

/-- Claim C9: graph.py requests `process_single_paper_node` from the
nodes module, but the nodes module defines no such name, so the import of
the graph module fails with `ImportError` before `build_graph` (or
`main`) can run. -/
theorem c9_graph_import_fails :
    fromImport nodesModuleDefs graphImportFromNodes =
      Except.error "ImportError: cannot import name process_single_paper_node" ∧
    ¬ "process_single_paper_node" ∈ nodesModuleDefs := by
  refine ⟨rfl, by decide⟩

/-- Claim C10: `Paper.author_list` formats deterministically by author
count: empty string for zero authors, the lone name for one, the two
names joined by " and " for two, and the first name followed by " et al."
for three or more. -/
theorem c10_author_list (p : Paper) :
    (p.core.authors = [] → p.author_list = "") ∧
    (∀ a, p.core.authors = [a] → p.author_list = a.name) ∧
    (∀ a b, p.core.authors = [a, b] →
      p.author_list = a.name ++ " and " ++ b.name) ∧
    (∀ a b c rest, p.core.authors = a :: b :: c :: rest →
      p.author_list = a.name ++ " et al.") := by
  refine ⟨?_, ?_, ?_, ?_⟩
  · intro h
    simp [Paper.author_list, h]
  · intro a h
    simp [Paper.author_list, h]
  · intro a b h
    simp [Paper.author_list, h]
  · intro a b c rest h
    simp [Paper.author_list, h]

/-- Claim C10, witness at a concrete two-author paper. -/
theorem c10_witness : paperTwoAuthors.author_list = "Xavier and Yvonne" :=
  ((c10_author_list paperTwoAuthors).2.2.1 authorX authorY rfl).trans rfl
